import Mathlib

/-
Verification development for the geo-offset library (src/offset.rs).

The library computes planar offsets (buffering) of geometries.  Its
coordinate type is generic over a floating-point type `F : CoordFloat +
FloatConst`; the embedding instantiates coordinates at `ℚ` and abstracts the
operations that have no exact rational counterpart (trigonometric functions,
atan2, square root, the value of TAU, and the float-to-usize conversion) into
an explicit `FloatOps` record threaded through every function, mirroring how
the Rust code obtains them from the `CoordFloat`/`FloatConst` traits.  The
polygon boolean engine (geo-clipper) is an external collaborator; it is
modelled as an abstract `MergeOps` record of union/difference operations
taking the scale factor argument, exactly as the code calls it.
-/

namespace GeoOffset

/-- Coordinate scalar: the generic float type `F` of the Rust code, embedded
as the rationals. -/
abbrev F := ℚ

/-- A planar coordinate (geo_types::Coord). -/
structure Coord where
  x : F
  y : F
deriving DecidableEq

/-- Operations the Rust code obtains from the float type itself
(CoordFloat/FloatConst traits and num_traits conversions); parameters of the
embedding.  `toUsize` models `.to_usize()`, returning `none` when the value
is not representable as a usize (negative, infinite, NaN, or too large). -/
structure FloatOps where
  cos : F → F
  sin : F → F
  atan2 : F → F → F
  sqrt : F → F
  tau : F
  toUsize : F → Option Nat

/-- Error produced by the edge/normal utility when manipulating edges
(the utility itself lives outside src/, modelled from the spec). -/
inductive EdgeError where
  | verticesOverlap
deriving DecidableEq

/-- If offset computing fails this error is returned (enum OffsetError). -/
inductive OffsetError where
  | edgeError (e : EdgeError)
deriving DecidableEq

/-- Outcome of a fallible Rust computation: `ok` and `error` are the two
sides of `Result<_, OffsetError>`, and `panic` records a `.unwrap()` panic
(the computation does not return at all). -/
inductive Res (α : Type) where
  | panic
  | error (e : OffsetError)
  | ok (a : α)
deriving DecidableEq

/-- A polygon: one exterior ring plus interior rings (geo_types::Polygon). -/
structure GPolygon where
  exterior : List Coord
  interiors : List (List Coord)
deriving DecidableEq

/-- A set of polygons (geo_types::MultiPolygon). -/
structure MultiPolygon where
  polygons : List GPolygon
deriving DecidableEq

/-- The boolean merge collaborator (geo-clipper): union and difference of
polygon sets, taking the enlargement factor as the code passes it.  Where the
code calls the trait on a single Polygon the embedding wraps it as a
singleton MultiPolygon. -/
structure MergeOps where
  union : MultiPolygon → MultiPolygon → F → MultiPolygon
  difference : MultiPolygon → MultiPolygon → F → MultiPolygon

/-- The constant factor used to enlarge shapes before integer clipping
(trait ClipperFactor, value 1000.0). -/
def clipper_factor : F := 1000

/-- Resolution of arcs generated around corners for positive offsets. -/
inductive ArcResolution where
  | SegmentCount (n : Nat)
  | SegmentLength (l : F)
deriving DecidableEq

/-- The default arc resolution is 5 segments. -/
def default_arc_resolution : ArcResolution := .SegmentCount 5

/-- A line segment between two coordinates (geo_types::Line; the field named
end in Rust is `stop` here because end is a Lean keyword). -/
structure GLine where
  start : Coord
  stop : Coord
deriving DecidableEq

/-- Modelled from the spec: the edge utility (not under src/; §6 gives
`normals(segment) -> Result<{inward, outward}, DegenerateSegment>`).  An edge
holds its two endpoints, named as the Rust call sites use them
(`edge.current`, `edge.next`). -/
structure Edge where
  current : Coord
  next : Coord
deriving DecidableEq

/-- Modelled from the spec: the inward unit normal of an edge; fails when the
two endpoints coincide, making a perpendicular direction undefined (§3, §7). -/
def Edge.inwards_normal (ops : FloatOps) (e : Edge) : Except EdgeError Coord :=
  if e.current = e.next then .error .verticesOverlap
  else
    let dx := e.next.x - e.current.x
    let dy := e.next.y - e.current.y
    let len := ops.sqrt (dx * dx + dy * dy)
    .ok ⟨-dy / len, dx / len⟩

/-- Modelled from the spec: the outward unit normal, the negation of the
inward one; fails under the same degeneracy condition. -/
def Edge.outwards_normal (ops : FloatOps) (e : Edge) : Except EdgeError Coord :=
  match e.inwards_normal ops with
  | .error err => .error err
  | .ok n => .ok ⟨-n.x, -n.y⟩

/-- Modelled from the spec: the edge translated by the given vector (§4.3,
one of the two offset parallel lines). -/
def Edge.with_offset (e : Edge) (dx dy : F) : Edge :=
  ⟨⟨e.current.x + dx, e.current.y + dy⟩, ⟨e.next.x + dx, e.next.y + dy⟩⟩

/-- Modelled from the spec: the edge translated by the given vector and
traversed in reverse, so the overall contour keeps a single winding (§4.3). -/
def Edge.inverse_with_offset (e : Edge) (dx dy : F) : Edge :=
  ⟨⟨e.next.x + dx, e.next.y + dy⟩, ⟨e.current.x + dx, e.current.y + dy⟩⟩

/-- The sign test `is_sign_positive` of the float type.  The rationals have
no negative zero, so over the embedding it coincides with `0 ≤ q`. -/
def is_sign_positive (q : F) : Bool := decide (0 ≤ q)

/-- Angle normalization used by create_arc: add TAU when atan2 returned a
negative angle. -/
def normalize_angle (ops : FloatOps) (a : F) : F :=
  if a < 0 then a + ops.tau else a

/-- The normalized atan2 angle of a vertex as seen from the arc center
(the start_angle / end_angle computation of create_arc). -/
def arc_angle (ops : FloatOps) (center v : Coord) : F :=
  normalize_angle ops (ops.atan2 (v.y - center.y) (v.x - center.x))

/-- The swept angle of create_arc: start − end when start > end, otherwise
start + TAU − end. -/
def arc_sweep (ops : FloatOps) (center start_vertex end_vertex : Coord) : F :=
  let sa := arc_angle ops center start_vertex
  let ea := arc_angle ops center end_vertex
  if sa > ea then sa - ea else sa + ops.tau - ea

/-- The segment count chosen by create_arc for a given swept angle and
radius: the fixed count, or the usize conversion of arc_length over the
target segment length (`none` models the conversion failing, on which the
code unwraps and panics). -/
def arc_segment_count (ops : FloatOps) (sweep radius : F) (r : ArcResolution) :
    Option Nat :=
  match r with
  | .SegmentCount n => some n
  | .SegmentLength l => ops.toUsize (sweep * radius / l)

/-- The per-segment angular step of create_arc. -/
def arc_step (ops : FloatOps) (sweep : F) (n : Nat) (outwards : Bool) : F :=
  (if outwards then -sweep else ops.tau - sweep) / (n : F)

/-- A point on the circle of the given center and radius at the given
angle, as create_arc samples it. -/
def arc_point (ops : FloatOps) (center : Coord) (radius a : F) : Coord :=
  ⟨center.x + ops.cos a * radius, center.y + ops.sin a * radius⟩

/-- The arc tessellator `create_arc`: appends to `vertices` the arc from
`start_vertex` to `end_vertex` around `center`.  Returns `none` when the
usize conversion of the segment count unwraps a `None` (panic). -/
def create_arc (ops : FloatOps) (vertices : List Coord) (center : Coord)
    (radius : F) (start_vertex end_vertex : Coord) (r : ArcResolution)
    (outwards : Bool) : Option (List Coord) :=
  let sweep := arc_sweep ops center start_vertex end_vertex
  match arc_segment_count ops sweep radius r with
  | none => none
  | some n =>
    let start_angle := arc_angle ops center start_vertex
    let segment_angle := arc_step ops sweep n outwards
    some (vertices ++ (start_vertex ::
      (((List.range (n - 1)).map (fun i =>
        arc_point ops center radius (start_angle + segment_angle * ((i + 1 : Nat) : F))))
        ++ [end_vertex])))

/-- Offset of a point (impl Offset for geo_types::Point): the empty set for a
negative distance, otherwise a regular polygon approximating the circle of
radius `distance`, with at least 3 sides, sampled counter-clockwise starting
one step past angle 0.  `panic` when the usize conversion of
circumference / segment_length unwraps a `None`. -/
def point_offset (ops : FloatOps) (p : Coord) (distance : F)
    (r : ArcResolution) : Res MultiPolygon :=
  if distance < 0 then .ok ⟨[]⟩
  else
    match
      (match r with
       | .SegmentCount n => some n
       | .SegmentLength l => ops.toUsize (ops.tau * distance / l)) with
    | none => .panic
    | some c =>
      let segment_count := max c 3
      let angle_per_segment := ops.tau / (segment_count : F)
      let contour := (List.range segment_count).map (fun i =>
        let a := angle_per_segment * ((i + 1 : Nat) : F)
        (⟨p.x + distance * ops.cos a, p.y + distance * ops.sin a⟩ : Coord))
      .ok ⟨[⟨contour, []⟩]⟩

/-- Offset of a line segment (impl Offset for geo_types::Line): empty for a
negative distance; if both normals of the edge exist, build the capsule from
the two offset parallel edges joined by two outward arcs; otherwise fall back
to the point offset of the start coordinate. -/
def line_offset (ops : FloatOps) (l : GLine) (distance : F)
    (r : ArcResolution) : Res MultiPolygon :=
  if distance < 0 then .ok ⟨[]⟩
  else
    let e1 : Edge := ⟨l.start, l.stop⟩
    match e1.inwards_normal ops, e1.outwards_normal ops with
    | .ok in_normal, .ok out_normal =>
      let offset0 := e1.with_offset (in_normal.x * distance) (in_normal.y * distance)
      let offset1 := e1.inverse_with_offset (out_normal.x * distance) (out_normal.y * distance)
      match create_arc ops [] l.start distance offset1.next offset0.current r true with
      | none => .panic
      | some vs1 =>
        match create_arc ops vs1 l.stop distance offset0.next offset1.current r true with
        | none => .panic
        | some vs2 => .ok ⟨[⟨vs2, []⟩]⟩
    | _, _ => point_offset ops l.start distance r

/-- The reduction loop shared by every collection offsetter: starting from
`acc`, offset each element with `f` and union it in; the first element whose
offset fails (`?`) aborts the whole fold with that failure, and a panic
aborts it likewise. -/
def offset_fold (merge : MergeOps) (f : α → Res MultiPolygon) :
    List α → MultiPolygon → Res MultiPolygon
  | [], acc => .ok acc
  | x :: rest, acc =>
    match f x with
    | .panic => .panic
    | .error e => .error e
    | .ok p => offset_fold merge f rest (merge.union acc p clipper_factor)

/-- The consecutive-pair segments of a LineString (geo_types
LineString::lines). -/
def lines_of : List Coord → List GLine
  | c1 :: c2 :: rest => ⟨c1, c2⟩ :: lines_of (c2 :: rest)
  | _ => []

/-- The post-processing of the LineString offsetter: start from the first
polygon of the set (or the empty set when there is none) and subtract every
subsequent polygon from it, folding left to right. -/
def carve_holes (merge : MergeOps) (mp : MultiPolygon) : MultiPolygon :=
  (mp.polygons.drop 1).foldl
    (fun result hole => merge.difference result ⟨[hole]⟩ clipper_factor)
    ⟨((mp.polygons.head?).map (fun poly => [poly])).getD []⟩

/-- Offset of a LineString (impl Offset for geo_types::LineString): empty for
a negative distance; otherwise union the capsules of all consecutive-pair
segments, then carve the subsequent polygons of the unioned set out of the
first one. -/
def line_string_offset (ops : FloatOps) (merge : MergeOps) (ls : List Coord)
    (distance : F) (r : ArcResolution) : Res MultiPolygon :=
  if distance < 0 then .ok ⟨[]⟩
  else
    match offset_fold merge (fun ln => line_offset ops ln distance r)
        (lines_of ls) ⟨[]⟩ with
    | .panic => .panic
    | .error e => .error e
    | .ok mp => .ok (carve_holes merge mp)

/-- Offset of a MultiLineString (impl Offset for geo_types::MultiLineString):
empty for a negative distance, otherwise the union fold of the member
offsets. -/
def multi_line_string_offset (ops : FloatOps) (merge : MergeOps)
    (lss : List (List Coord)) (distance : F) (r : ArcResolution) :
    Res MultiPolygon :=
  if distance < 0 then .ok ⟨[]⟩
  else offset_fold merge (fun ls => line_string_offset ops merge ls distance r) lss ⟨[]⟩

/-- Offset of a MultiPoint (impl Offset for geo_types::MultiPoint): empty for
a negative distance, otherwise the union fold of the member offsets. -/
def multi_point_offset (ops : FloatOps) (merge : MergeOps)
    (ps : List Coord) (distance : F) (r : ArcResolution) : Res MultiPolygon :=
  if distance < 0 then .ok ⟨[]⟩
  else offset_fold merge (fun p => point_offset ops p distance r) ps ⟨[]⟩

/-- Offset of a Polygon (impl Offset for geo_types::Polygon): offset the
exterior ring and the interior rings with the absolute distance, then — per
the sign of the distance — union both fragments onto the original polygon or
subtract both from it, left to right. -/
def polygon_offset (ops : FloatOps) (merge : MergeOps) (p : GPolygon)
    (distance : F) (r : ArcResolution) : Res MultiPolygon :=
  match line_string_offset ops merge p.exterior |distance| r with
  | .panic => .panic
  | .error e => .error e
  | .ok exterior_with_offset =>
    match multi_line_string_offset ops merge p.interiors |distance| r with
    | .panic => .panic
    | .error e => .error e
    | .ok interiors_with_offset =>
      .ok (if is_sign_positive distance then
        merge.union
          (merge.union ⟨[p]⟩ exterior_with_offset clipper_factor)
          interiors_with_offset clipper_factor
      else
        merge.difference
          (merge.difference ⟨[p]⟩ exterior_with_offset clipper_factor)
          interiors_with_offset clipper_factor)

/-- Offset of a MultiPolygon (impl Offset for geo_types::MultiPolygon): the
union fold of the member offsets (no negative-distance shortcut; polygons
handle erosion themselves). -/
def multi_polygon_offset (ops : FloatOps) (merge : MergeOps)
    (ps : List GPolygon) (distance : F) (r : ArcResolution) : Res MultiPolygon :=
  offset_fold merge (fun p => polygon_offset ops merge p distance r) ps ⟨[]⟩

/-- Modelled from the geo_types collaborator: Triangle::to_polygon, the
closed ring through the three vertices. -/
def triangle_to_polygon (a b c : Coord) : GPolygon := ⟨[a, b, c, a], []⟩

/-- Modelled from the geo_types collaborator: Rect::to_polygon, the closed
ring through the four corners. -/
def rect_to_polygon (mn mx : Coord) : GPolygon :=
  ⟨[⟨mn.x, mn.y⟩, ⟨mx.x, mn.y⟩, ⟨mx.x, mx.y⟩, ⟨mn.x, mx.y⟩, ⟨mn.x, mn.y⟩], []⟩

/-- The geo_types::Geometry enum: every variant the dispatcher matches on. -/
inductive Geometry where
  | point (p : Coord)
  | line (l : GLine)
  | lineString (ls : List Coord)
  | triangle (a b c : Coord)
  | rect (mn mx : Coord)
  | polygon (p : GPolygon)
  | multiPoint (ps : List Coord)
  | multiLineString (lss : List (List Coord))
  | multiPolygon (ps : List GPolygon)
  | collection (gs : List Geometry)

/-- The geometry dispatcher (impl Offset for geo_types::Geometry together
with the GeometryCollection impl): routes each variant to its offsetter;
a collection folds the union of its members' offsets, aborting on the first
failure. -/
def geometry_offset (ops : FloatOps) (merge : MergeOps) (g : Geometry)
    (distance : F) (r : ArcResolution) : Res MultiPolygon :=
  match g with
  | .point p => point_offset ops p distance r
  | .line l => line_offset ops l distance r
  | .lineString ls => line_string_offset ops merge ls distance r
  | .triangle a b c => polygon_offset ops merge (triangle_to_polygon a b c) distance r
  | .rect mn mx => polygon_offset ops merge (rect_to_polygon mn mx) distance r
  | .polygon p => polygon_offset ops merge p distance r
  | .multiPoint ps => multi_point_offset ops merge ps distance r
  | .multiLineString lss => multi_line_string_offset ops merge lss distance r
  | .multiPolygon ps => multi_polygon_offset ops merge ps distance r
  | .collection gs =>
    offset_fold merge (fun g' => geometry_offset ops merge g'.1 distance r)
      gs.attach ⟨[]⟩
decreasing_by
  have h := List.sizeOf_lt_of_mem g'.2
  simp only [Geometry.collection.sizeOf_spec]
  omega

/-- Transcription of the spec's description of the LineString offsetter
(§4.4): union all per-segment capsules, then take the first polygon of the
unioned set as the outer boundary and subtract every subsequent polygon from
it, folding left to right; an empty unioned set yields the empty set.
Written from the spec's words, to be compared with `line_string_offset`. -/
def line_string_offset_spec (ops : FloatOps) (merge : MergeOps)
    (ls : List Coord) (distance : F) (r : ArcResolution) : Res MultiPolygon :=
  match offset_fold merge (fun ln => line_offset ops ln distance r)
      (lines_of ls) ⟨[]⟩ with
  | .ok mp =>
    .ok (match mp.polygons with
      | [] => ⟨[]⟩
      | outer :: holes =>
        holes.foldl (fun result hole => merge.difference result ⟨[hole]⟩ clipper_factor)
          ⟨[outer]⟩)
  | other => other

/-- Transcription of the spec's description of the Polygon offsetter (§4.5):
offset the exterior ring and the interior rings with the magnitude of the
distance; if the distance is nonnegative the result is the original polygon
unioned with both fragments, otherwise the original polygon minus both
fragments, left to right.  Written from the spec's words, to be compared with
`polygon_offset`. -/
def polygon_offset_spec (ops : FloatOps) (merge : MergeOps) (p : GPolygon)
    (distance : F) (r : ArcResolution) : Res MultiPolygon :=
  match line_string_offset ops merge p.exterior |distance| r with
  | .ok ext =>
    match multi_line_string_offset ops merge p.interiors |distance| r with
    | .ok ints =>
      if 0 ≤ distance then
        .ok (merge.union (merge.union ⟨[p]⟩ ext clipper_factor) ints clipper_factor)
      else
        .ok (merge.difference (merge.difference ⟨[p]⟩ ext clipper_factor) ints clipper_factor)
    | other => other
  | other => other

/-- Whether a computation returned successfully. -/
def is_ok : Res α → Bool
  | .ok _ => true
  | _ => false

/-- A computation that cannot return with an error (it may return a value or
fail to return at all). -/
def never_err (res : Res α) : Prop := ∀ e, res ≠ Res.error e

/-- The lengths of the exterior rings of the polygons of a successful result;
`none` when the computation did not return a value. -/
def contour_lengths : Res MultiPolygon → Option (List Nat)
  | .ok mp => some (mp.polygons.map (fun poly => poly.exterior.length))
  | _ => none

/-- A concrete FloatOps instance used to evaluate the development on closed
inputs: simple rational stand-ins for the transcendental operations, TAU
valued 9, and the usize conversion defined on the nonnegative rationals by
truncation. -/
def witness_ops : FloatOps where
  cos := fun _ => 1
  sin := fun _ => 0
  atan2 := fun _ _ => 0
  sqrt := fun _ => 1
  tau := 9
  toUsize := fun q => if q < 0 then none else some (Int.toNat ⌊q⌋)

/-- A FloatOps instance whose usize conversion always fails, standing in for
a float whose quotient is not representable (infinite, NaN or too large). -/
def overflow_ops : FloatOps :=
  { witness_ops with toUsize := fun _ => none }

/-- A concrete MergeOps instance used to evaluate the development on closed
inputs: union appends the polygon lists, difference keeps the left operand. -/
def list_merge : MergeOps where
  union := fun a b _ => ⟨a.polygons ++ b.polygons⟩
  difference := fun a _ _ => a

/-- The point offsetter returns a value or panics, never an error. -/
theorem point_offset_never_err (ops : FloatOps) (p : Coord) (distance : F)
    (r : ArcResolution) : never_err (point_offset ops p distance r) := by
  intro e
  unfold point_offset
  split
  · simp
  · split <;> simp

/-- The line offsetter returns a value or panics, never an error: both
normal-computation failures are caught and replaced by the point fallback. -/
theorem line_offset_never_err (ops : FloatOps) (l : GLine) (distance : F)
    (r : ArcResolution) : never_err (line_offset ops l distance r) := by
  intro e
  unfold line_offset
  split
  · simp
  · dsimp only
    split
    · split
      · simp
      · split <;> simp
    all_goals exact point_offset_never_err ops l.start distance r e

/-- The union fold cannot return an error when none of the member offsets
can. -/
theorem offset_fold_never_err_of {α : Type} (merge : MergeOps)
    (f : α → Res MultiPolygon) :
    ∀ (xs : List α) (acc : MultiPolygon), (∀ x ∈ xs, never_err (f x)) →
      never_err (offset_fold merge f xs acc)
  | [], _, _ => by intro e; simp [offset_fold]
  | x :: rest, acc, h => by
    intro e
    unfold offset_fold
    cases hx : f x with
    | panic => simp
    | error e2 => exact absurd hx (h x (List.mem_cons_self x rest) e2)
    | ok p =>
      exact offset_fold_never_err_of merge f rest (merge.union acc p clipper_factor)
        (fun y hy => h y (List.mem_cons_of_mem x hy)) e

/-- The LineString offsetter never returns an error. -/
theorem line_string_offset_never_err (ops : FloatOps) (merge : MergeOps)
    (ls : List Coord) (distance : F) (r : ArcResolution) :
    never_err (line_string_offset ops merge ls distance r) := by
  intro e
  unfold line_string_offset
  split
  · simp
  · have hf := offset_fold_never_err_of merge
      (fun ln => line_offset ops ln distance r) (lines_of ls) ⟨[]⟩
      (fun ln _ => line_offset_never_err ops ln distance r)
    split
    · simp
    · next e2 heq => exact absurd heq (hf e2)
    · simp

/-- The MultiLineString offsetter never returns an error. -/
theorem multi_line_string_offset_never_err (ops : FloatOps) (merge : MergeOps)
    (lss : List (List Coord)) (distance : F) (r : ArcResolution) :
    never_err (multi_line_string_offset ops merge lss distance r) := by
  intro e
  unfold multi_line_string_offset
  split
  · simp
  · exact offset_fold_never_err_of merge _ lss ⟨[]⟩
      (fun ls _ => line_string_offset_never_err ops merge ls distance r) e

/-- The MultiPoint offsetter never returns an error. -/
theorem multi_point_offset_never_err (ops : FloatOps) (merge : MergeOps)
    (ps : List Coord) (distance : F) (r : ArcResolution) :
    never_err (multi_point_offset ops merge ps distance r) := by
  intro e
  unfold multi_point_offset
  split
  · simp
  · exact offset_fold_never_err_of merge _ ps ⟨[]⟩
      (fun p _ => point_offset_never_err ops p distance r) e

/-- The Polygon offsetter never returns an error. -/
theorem polygon_offset_never_err (ops : FloatOps) (merge : MergeOps)
    (p : GPolygon) (distance : F) (r : ArcResolution) :
    never_err (polygon_offset ops merge p distance r) := by
  intro e
  unfold polygon_offset
  split
  · simp
  · next e2 heq =>
    exact absurd heq (line_string_offset_never_err ops merge p.exterior |distance| r e2)
  · split
    · simp
    · next e2 heq =>
      exact absurd heq
        (multi_line_string_offset_never_err ops merge p.interiors |distance| r e2)
    · simp

/-- The MultiPolygon offsetter never returns an error. -/
theorem multi_polygon_offset_never_err (ops : FloatOps) (merge : MergeOps)
    (ps : List GPolygon) (distance : F) (r : ArcResolution) :
    never_err (multi_polygon_offset ops merge ps distance r) := by
  intro e
  unfold multi_polygon_offset
  exact offset_fold_never_err_of merge _ ps ⟨[]⟩
    (fun p _ => polygon_offset_never_err ops merge p distance r) e

/-- The dispatcher never returns an error, for any geometry. -/
theorem geometry_offset_never_err (ops : FloatOps) (merge : MergeOps) :
    ∀ (g : Geometry) (distance : F) (r : ArcResolution),
      never_err (geometry_offset ops merge g distance r)
  | .point p, d, r => by
    simp only [geometry_offset]; exact point_offset_never_err ops p d r
  | .line l, d, r => by
    simp only [geometry_offset]; exact line_offset_never_err ops l d r
  | .lineString ls, d, r => by
    simp only [geometry_offset]; exact line_string_offset_never_err ops merge ls d r
  | .triangle a b c, d, r => by
    simp only [geometry_offset]
    exact polygon_offset_never_err ops merge (triangle_to_polygon a b c) d r
  | .rect mn mx, d, r => by
    simp only [geometry_offset]
    exact polygon_offset_never_err ops merge (rect_to_polygon mn mx) d r
  | .polygon p, d, r => by
    simp only [geometry_offset]; exact polygon_offset_never_err ops merge p d r
  | .multiPoint ps, d, r => by
    simp only [geometry_offset]; exact multi_point_offset_never_err ops merge ps d r
  | .multiLineString lss, d, r => by
    simp only [geometry_offset]
    exact multi_line_string_offset_never_err ops merge lss d r
  | .multiPolygon ps, d, r => by
    simp only [geometry_offset]; exact multi_polygon_offset_never_err ops merge ps d r
  | .collection gs, d, r => by
    simp only [geometry_offset]
    exact offset_fold_never_err_of merge _ gs.attach ⟨[]⟩
      (fun g' _ => geometry_offset_never_err ops merge g'.1 d r)
decreasing_by
  have h := List.sizeOf_lt_of_mem g'.2
  simp only [Geometry.collection.sizeOf_spec]
  omega

/-- C1: for every input geometry, every distance and every arc-resolution
policy, offset_with_arc_resolution never returns Err: the only operation that
can produce an EdgeError — normal computation for a two-point Line — has both
normal failures caught in the Line offsetter and replaced by the point-offset
fallback, so the OffsetError value is unreachable from the public
interface. -/
theorem geometry_offset_never_returns_error (ops : FloatOps) (merge : MergeOps)
    (g : Geometry) (distance : F) (r : ArcResolution) (e : OffsetError) :
    geometry_offset ops merge g distance r ≠ Res.error e :=
  geometry_offset_never_err ops merge g distance r e

/-- C2: for every LineString and nonnegative distance, the offsetter unions
the per-segment capsules and then takes the first polygon of the unioned set
as the outer boundary, subtracting every subsequent polygon from it by
boolean difference, folding left to right; when the unioned set is empty the
result is the empty polygon set. -/
theorem line_string_offset_matches_spec (ops : FloatOps) (merge : MergeOps)
    (ls : List Coord) (distance : F) (r : ArcResolution) (h : 0 ≤ distance) :
    line_string_offset ops merge ls distance r =
      line_string_offset_spec ops merge ls distance r ∧
    carve_holes merge ⟨[]⟩ = (⟨[]⟩ : MultiPolygon) := by
  constructor
  · unfold line_string_offset line_string_offset_spec
    rw [if_neg (not_lt.mpr h)]
    cases hf : offset_fold merge (fun ln => line_offset ops ln distance r)
        (lines_of ls) ⟨[]⟩ with
    | panic => rfl
    | error e => rfl
    | ok mp =>
      cases mp with
      | mk polys => cases polys with
        | nil => rfl
        | cons outer holes => rfl
  · rfl

/-- Witness for C2 at a concrete polyline and distance 1. -/
theorem line_string_offset_matches_spec_witness :
    (0 : F) ≤ 1 ∧
    (line_string_offset witness_ops list_merge [⟨0, 0⟩, ⟨1, 0⟩] 1 (.SegmentCount 4) =
      line_string_offset_spec witness_ops list_merge [⟨0, 0⟩, ⟨1, 0⟩] 1 (.SegmentCount 4) ∧
     carve_holes list_merge ⟨[]⟩ = (⟨[]⟩ : MultiPolygon)) :=
  ⟨by norm_num,
   line_string_offset_matches_spec witness_ops list_merge [⟨0, 0⟩, ⟨1, 0⟩] 1
     (.SegmentCount 4) (by norm_num)⟩

/-- C3: for every polygon and every signed distance, the offsetter offsets
the exterior and interior rings with the magnitude of the distance, and the
sign only selects the combination: union onto the original polygon when the
distance is nonnegative, difference from it (left to right) when it is
negative. -/
theorem polygon_offset_matches_spec (ops : FloatOps) (merge : MergeOps)
    (p : GPolygon) (distance : F) (r : ArcResolution) :
    polygon_offset ops merge p distance r =
      polygon_offset_spec ops merge p distance r := by
  unfold polygon_offset polygon_offset_spec
  cases hext : line_string_offset ops merge p.exterior |distance| r with
  | panic => rfl
  | error e => rfl
  | ok ext =>
    cases hint : multi_line_string_offset ops merge p.interiors |distance| r with
    | panic => rfl
    | error e => rfl
    | ok ints =>
      by_cases hd : 0 ≤ distance <;> simp [is_sign_positive, hd]

/-- C5: for every point, Line, LineString and MultiLineString, offsetting by
a negative distance returns the empty polygon set successfully, independently
of the merge service (no merge call can influence the result). -/
theorem negative_distance_yields_empty (ops : FloatOps) (merge : MergeOps)
    (p : Coord) (l : GLine) (ls : List Coord) (lss : List (List Coord))
    (distance : F) (r : ArcResolution) (h : distance < 0) :
    point_offset ops p distance r = Res.ok ⟨[]⟩ ∧
    line_offset ops l distance r = Res.ok ⟨[]⟩ ∧
    line_string_offset ops merge ls distance r = Res.ok ⟨[]⟩ ∧
    multi_line_string_offset ops merge lss distance r = Res.ok ⟨[]⟩ :=
  ⟨by simp [point_offset, h], by simp [line_offset, h],
   by simp [line_string_offset, h], by simp [multi_line_string_offset, h]⟩

/-- Witness for C5 at distance −1. -/
theorem negative_distance_yields_empty_witness :
    (-1 : F) < 0 ∧
    (point_offset witness_ops ⟨0, 0⟩ (-1) default_arc_resolution = Res.ok ⟨[]⟩ ∧
     line_offset witness_ops ⟨⟨0, 0⟩, ⟨1, 1⟩⟩ (-1) default_arc_resolution = Res.ok ⟨[]⟩ ∧
     line_string_offset witness_ops list_merge [⟨0, 0⟩, ⟨1, 1⟩] (-1)
       default_arc_resolution = Res.ok ⟨[]⟩ ∧
     multi_line_string_offset witness_ops list_merge [[⟨0, 0⟩, ⟨1, 1⟩]] (-1)
       default_arc_resolution = Res.ok ⟨[]⟩) :=
  ⟨by norm_num,
   negative_distance_yields_empty witness_ops list_merge ⟨0, 0⟩ ⟨⟨0, 0⟩, ⟨1, 1⟩⟩
     [⟨0, 0⟩, ⟨1, 1⟩] [[⟨0, 0⟩, ⟨1, 1⟩]] (-1) default_arc_resolution (by norm_num)⟩

/-- C6: a Line whose two endpoints coincide, offset by a positive distance,
returns exactly the point offset of that location with the same distance and
resolution, and never an error. -/
theorem degenerate_line_falls_back_to_point (ops : FloatOps) (l : GLine)
    (distance : F) (r : ArcResolution) (hdeg : l.start = l.stop)
    (hd : 0 < distance) :
    line_offset ops l distance r = point_offset ops l.start distance r ∧
    never_err (line_offset ops l distance r) := by
  constructor
  · unfold line_offset
    rw [if_neg (not_lt.mpr hd.le)]
    dsimp only
    have hin : Edge.inwards_normal ops ⟨l.start, l.stop⟩ = .error .verticesOverlap := by
      unfold Edge.inwards_normal
      exact if_pos hdeg
    have hout : Edge.outwards_normal ops ⟨l.start, l.stop⟩ = .error .verticesOverlap := by
      unfold Edge.outwards_normal
      rw [hin]
    rw [hin, hout]
  · exact line_offset_never_err ops l distance r

/-- Witness for C6 at the degenerate segment from (2, 3) to (2, 3) and
distance 1. -/
theorem degenerate_line_falls_back_to_point_witness :
    (⟨⟨2, 3⟩, ⟨2, 3⟩⟩ : GLine).start = (⟨⟨2, 3⟩, ⟨2, 3⟩⟩ : GLine).stop ∧
    (0 : F) < 1 ∧
    (line_offset witness_ops ⟨⟨2, 3⟩, ⟨2, 3⟩⟩ 1 default_arc_resolution =
      point_offset witness_ops (⟨2, 3⟩ : Coord) 1 default_arc_resolution ∧
     never_err (line_offset witness_ops ⟨⟨2, 3⟩, ⟨2, 3⟩⟩ 1 default_arc_resolution)) :=
  ⟨rfl, by norm_num,
   degenerate_line_falls_back_to_point witness_ops ⟨⟨2, 3⟩, ⟨2, 3⟩⟩ 1
     default_arc_resolution rfl (by norm_num)⟩

/-- C7: whenever the segment count of an arc tessellation call resolves to
`n`, the emitted vertex sequence begins with the start tangent vertex exactly
as given, ends with the end tangent vertex exactly as given (not recomputed
from an angle), and contains `n − 1` interior samples in between, the i-th
sample placed at angle start_angle + step × i. -/
theorem create_arc_vertex_sequence (ops : FloatOps) (vs : List Coord)
    (center : Coord) (radius : F) (sv ev : Coord) (r : ArcResolution)
    (outw : Bool) (n : Nat)
    (h : arc_segment_count ops (arc_sweep ops center sv ev) radius r = some n) :
    create_arc ops vs center radius sv ev r outw =
      some (vs ++ (sv ::
        (((List.range (n - 1)).map (fun i =>
          arc_point ops center radius
            (arc_angle ops center sv +
              arc_step ops (arc_sweep ops center sv ev) n outw * ((i + 1 : Nat) : F))))
          ++ [ev]))) := by
  unfold create_arc
  dsimp only
  rw [h]

/-- Witness for C7 at a concrete arc with a fixed count of 3 segments. -/
theorem create_arc_vertex_sequence_witness :
    arc_segment_count witness_ops (arc_sweep witness_ops ⟨0, 0⟩ ⟨1, 0⟩ ⟨0, 1⟩) 1
      (.SegmentCount 3) = some 3 ∧
    create_arc witness_ops [] ⟨0, 0⟩ 1 ⟨1, 0⟩ ⟨0, 1⟩ (.SegmentCount 3) true =
      some ([] ++ ((⟨1, 0⟩ : Coord) ::
        (((List.range (3 - 1)).map (fun i =>
          arc_point witness_ops ⟨0, 0⟩ 1
            (arc_angle witness_ops ⟨0, 0⟩ ⟨1, 0⟩ +
              arc_step witness_ops (arc_sweep witness_ops ⟨0, 0⟩ ⟨1, 0⟩ ⟨0, 1⟩) 3 true *
                ((i + 1 : Nat) : F))))
          ++ [⟨0, 1⟩]))) :=
  ⟨rfl,
   create_arc_vertex_sequence witness_ops [] ⟨0, 0⟩ 1 ⟨1, 0⟩ ⟨0, 1⟩
     (.SegmentCount 3) true 3 rfl⟩

/-- Counterexample to C8 as stated: at an arc tessellation call whose start
and end tangent vertices coincide (so both normalized angles are equal), the
swept angle computed by the code equals TAU itself, which does not lie in the
half-open interval [0, TAU). -/
theorem arc_sweep_not_in_claimed_interval :
    arc_sweep witness_ops ⟨0, 0⟩ ⟨1, 0⟩ ⟨1, 0⟩ = witness_ops.tau ∧
    ¬(arc_sweep witness_ops ⟨0, 0⟩ ⟨1, 0⟩ ⟨1, 0⟩ < witness_ops.tau) := by
  refine ⟨?_, ?_⟩ <;>
    norm_num [arc_sweep, arc_angle, normalize_angle, witness_ops]

/-- C8 amended: the start and end angles are atan2 values normalized into
[0, TAU), and the swept angle is start − end when start > end and
start + TAU − end otherwise; the swept angle is the clockwise sweep and lies
in the half-open interval (0, TAU] — it equals TAU (not a value below it)
when the two normalized angles coincide. -/
theorem arc_angles_normalized_and_sweep_bounds (ops : FloatOps)
    (center sv ev : Coord) (htau : 0 < ops.tau)
    (hatan : ∀ y x : F, -(ops.tau / 2) < ops.atan2 y x ∧ ops.atan2 y x ≤ ops.tau / 2) :
    (0 ≤ arc_angle ops center sv ∧ arc_angle ops center sv < ops.tau) ∧
    (0 ≤ arc_angle ops center ev ∧ arc_angle ops center ev < ops.tau) ∧
    arc_sweep ops center sv ev =
      (if arc_angle ops center ev < arc_angle ops center sv
       then arc_angle ops center sv - arc_angle ops center ev
       else arc_angle ops center sv + ops.tau - arc_angle ops center ev) ∧
    0 < arc_sweep ops center sv ev ∧ arc_sweep ops center sv ev ≤ ops.tau := by
  have norm_bounds : ∀ v : Coord,
      0 ≤ arc_angle ops center v ∧ arc_angle ops center v < ops.tau := by
    intro v
    unfold arc_angle normalize_angle
    obtain ⟨hlo, hhi⟩ := hatan (v.y - center.y) (v.x - center.x)
    by_cases hneg : ops.atan2 (v.y - center.y) (v.x - center.x) < 0
    · rw [if_pos hneg]
      constructor <;> linarith
    · rw [if_neg hneg]
      push_neg at hneg
      constructor <;> linarith
  obtain ⟨hs0, hs1⟩ := norm_bounds sv
  obtain ⟨he0, he1⟩ := norm_bounds ev
  refine ⟨⟨hs0, hs1⟩, ⟨he0, he1⟩, rfl, ?_⟩
  unfold arc_sweep
  dsimp only
  split
  · next hgt => constructor <;> linarith
  · next hle =>
    push_neg at hle
    constructor <;> linarith

/-- Witness for the amended C8 at a concrete arc tessellation call. -/
theorem arc_angles_normalized_and_sweep_bounds_witness :
    (0 : F) < witness_ops.tau ∧
    (0 < arc_sweep witness_ops ⟨0, 0⟩ ⟨1, 0⟩ ⟨0, 1⟩ ∧
     arc_sweep witness_ops ⟨0, 0⟩ ⟨1, 0⟩ ⟨0, 1⟩ ≤ witness_ops.tau) :=
  ⟨by norm_num [witness_ops],
   (arc_angles_normalized_and_sweep_bounds witness_ops ⟨0, 0⟩ ⟨1, 0⟩ ⟨0, 1⟩
     (by norm_num [witness_ops])
     (fun y x => ⟨by norm_num [witness_ops], by norm_num [witness_ops]⟩)).2.2.2⟩

/-- C9: in the union fold shared by every collection offsetter, if the
member at position k fails while every earlier member succeeds, the whole
fold returns exactly that failure — no set built from the preceding members
is returned. -/
theorem offset_fold_first_failure_aborts {α : Type} (merge : MergeOps)
    (f : α → Res MultiPolygon) :
    ∀ (xs : List α) (acc : MultiPolygon) (k : Nat) (x : α) (e : OffsetError),
      xs.get? k = some x → f x = Res.error e →
      (∀ j, j < k → (xs.get? j).map (fun y => is_ok (f y)) = some true) →
      offset_fold merge f xs acc = Res.error e
  | [], _, k, x, e, hget, _, _ => by simp at hget
  | z :: rest, acc, 0, x, e, hget, hfail, _ => by
    simp at hget
    subst hget
    unfold offset_fold
    rw [hfail]
  | z :: rest, acc, k + 1, x, e, hget, hfail, hok => by
    have h0 := hok 0 (Nat.succ_pos k)
    simp at h0
    unfold offset_fold
    cases hz : f z with
    | panic => rw [hz] at h0; simp [is_ok] at h0
    | error e2 => rw [hz] at h0; simp [is_ok] at h0
    | ok p =>
      exact offset_fold_first_failure_aborts merge f rest
        (merge.union acc p clipper_factor) k x e (by simpa using hget) hfail
        (fun j hj => by simpa using hok (j + 1) (Nat.succ_lt_succ hj))

/-- Witness for C9: a three-member fold whose second member fails. -/
theorem offset_fold_first_failure_aborts_witness :
    ([0, 1, 2].get? 1 = some 1) ∧
    ((fun n : Nat => if n = 1 then Res.error (.edgeError .verticesOverlap)
        else Res.ok (⟨[]⟩ : MultiPolygon)) 1 =
      Res.error (.edgeError .verticesOverlap)) ∧
    offset_fold list_merge
      (fun n : Nat => if n = 1 then Res.error (.edgeError .verticesOverlap)
        else Res.ok (⟨[]⟩ : MultiPolygon)) [0, 1, 2] ⟨[]⟩ =
      Res.error (.edgeError .verticesOverlap) :=
  ⟨rfl, rfl,
   offset_fold_first_failure_aborts list_merge
     (fun n : Nat => if n = 1 then Res.error (.edgeError .verticesOverlap)
       else Res.ok (⟨[]⟩ : MultiPolygon)) [0, 1, 2] ⟨[]⟩ 1 1
     (.edgeError .verticesOverlap) rfl rfl (by decide)⟩

/-- C10: under the SegmentLength policy the point offsetter and the arc
tessellator are total exactly when the usize conversion of the quotient
succeeds: when the conversion yields none the unwrap panics and the
computation does not return at all, and when it yields a count the
computation returns a value. -/
theorem segment_length_totality (ops : FloatOps) (p : Coord)
    (distance l radius : F) (vs : List Coord) (center sv ev : Coord)
    (outw : Bool) (hd : 0 ≤ distance) :
    (ops.toUsize (ops.tau * distance / l) = none →
      point_offset ops p distance (.SegmentLength l) = Res.panic) ∧
    (ops.toUsize (arc_sweep ops center sv ev * radius / l) = none →
      create_arc ops vs center radius sv ev (.SegmentLength l) outw = none) ∧
    (∀ n, ops.toUsize (ops.tau * distance / l) = some n →
      ∃ mp, point_offset ops p distance (.SegmentLength l) = Res.ok mp) ∧
    (∀ n, ops.toUsize (arc_sweep ops center sv ev * radius / l) = some n →
      ∃ out, create_arc ops vs center radius sv ev (.SegmentLength l) outw = some out) := by
  refine ⟨?_, ?_, ?_, ?_⟩
  · intro h
    simp [point_offset, not_lt.mpr hd, h]
  · intro h
    simp [create_arc, arc_segment_count, h]
  · intro n h
    simp [point_offset, not_lt.mpr hd, h]
  · intro n h
    simp [create_arc, arc_segment_count, h]

/-- Witness for C10: an ops instance whose usize conversion fails makes the
point offsetter panic. -/
theorem segment_length_totality_witness :
    (0 : F) ≤ 1 ∧
    point_offset overflow_ops ⟨0, 0⟩ 1 (.SegmentLength 1) = Res.panic :=
  ⟨by norm_num,
   (segment_length_totality overflow_ops ⟨0, 0⟩ 1 1 1 [] ⟨0, 0⟩ ⟨1, 0⟩ ⟨0, 1⟩ true
     (by norm_num)).1 rfl⟩

/-- Counterexample to C4 as stated: with TAU valued 9, a point of distance 1
under SegmentLength 2 has quotient 9/2; the code truncates it to 4 segments
while the claimed ceiling is 5. -/
theorem witness_toUsize_nine_halves :
    witness_ops.toUsize (witness_ops.tau * 1 / 2) = some 4 := by
  have hfl : ⌊witness_ops.tau * 1 / 2⌋ = (4 : ℤ) := by
    rw [show witness_ops.tau * 1 / 2 = (9 : ℚ) * 1 / 2 from rfl, Int.floor_eq_iff]
    norm_num
  show (if witness_ops.tau * 1 / 2 < 0 then none
        else some (Int.toNat ⌊witness_ops.tau * 1 / 2⌋)) = some 4
  rw [if_neg (by norm_num [witness_ops]), hfl]
  rfl

theorem point_segment_count_not_ceil :
    contour_lengths (point_offset witness_ops ⟨0, 0⟩ 1 (.SegmentLength 2)) = some [4] ∧
    (⌈witness_ops.tau * 1 / 2⌉ : ℤ) = 5 ∧ (4 : Nat) ≠ 5 := by
  refine ⟨?_, ?_, by decide⟩
  · unfold point_offset
    rw [if_neg (by norm_num : ¬((1 : F) < 0))]
    dsimp only
    rw [witness_toUsize_nine_halves]
    simp [contour_lengths]
  · rw [show witness_ops.tau * 1 / 2 = (9 : ℚ) * 1 / 2 from rfl, Int.ceil_eq_iff]
    norm_num

/-- C4 amended: under the SegmentLength policy the segment count is the
truncation (floor, via to_usize) of arc_length / target_length, not its
ceiling; the at-least-3 floor is applied to the point-offset circle (its
contour has max(count, 3) vertices), while create_arc emits its count without
such a floor. -/
theorem segment_count_is_floor_of_quotient (ops : FloatOps) (p : Coord)
    (distance l radius : F) (vs : List Coord) (center sv ev : Coord)
    (outw : Bool) (n : Nat) (hd : 0 ≤ distance) :
    (ops.toUsize (ops.tau * distance / l) = some n →
      contour_lengths (point_offset ops p distance (.SegmentLength l)) =
        some [max n 3]) ∧
    (ops.toUsize (arc_sweep ops center sv ev * radius / l) = some n →
      (create_arc ops vs center radius sv ev (.SegmentLength l) outw).map List.length =
        some (vs.length + ((n - 1) + 2))) := by
  constructor
  · intro h
    simp [point_offset, not_lt.mpr hd, h, contour_lengths]
  · intro h
    simp [create_arc, arc_segment_count, h]

/-- Witness for the amended C4: quotient 9/2 truncates to 4 and the point
contour has max(4, 3) vertices. -/
theorem segment_count_is_floor_of_quotient_witness :
    witness_ops.toUsize (witness_ops.tau * 1 / 2) = some 4 ∧
    contour_lengths (point_offset witness_ops ⟨0, 0⟩ 1 (.SegmentLength 2)) =
      some [max 4 3] :=
  ⟨witness_toUsize_nine_halves,
   (segment_count_is_floor_of_quotient witness_ops ⟨0, 0⟩ 1 2 1 [] ⟨0, 0⟩ ⟨1, 0⟩
     ⟨0, 1⟩ true 4 (by norm_num)).1 witness_toUsize_nine_halves⟩

end GeoOffset
